import Mathlib

/-!
Verification of the search core of this chess engine (src/src/search.cpp)
against its natural-language specification.

The development shallowly embeds the relevant parts of search.cpp:

* scores are Int with the sentinel constants of the engine;
* the transposition-table score rebasing functions value_to_tt and
  value_from_tt, the statistics bonus stat_bonus and the randomized draw
  value value_draw are transcribed directly from the source;
* the aspiration-window loop of Thread::search, the early-return prefix of
  the main search function, its post-moves-loop epilogue, and the whole of
  qsearch and qsearch_hybrid are transcribed as functional programs over
  explicit state, with the external collaborators of the search core
  (position logic, move picker, evaluator) given as oracle parameters.

Only search.cpp is part of the sources; the engine headers (types.h,
movepick.h) are not, so their constants are modelled from the spec where
the spec gives them, and from the standard engine values otherwise, each
with a doc comment saying so.
-/

namespace Stockfish

/-- Spec section 3: DRAW sentinel of the Score type. -/
def VALUE_ZERO : Int := 0

/-- Spec section 3: DRAW sentinel of the Score type (the same value as VALUE_ZERO). -/
def VALUE_DRAW : Int := 0

/-- Spec section 3: MATE = 32000. Modelled from the spec: the constant lives
in the types header, which is not among the sources. -/
def VALUE_MATE : Int := 32000

/-- Spec section 3: INF = 32001. Modelled from the spec: the constant lives
in the types header, which is not among the sources. -/
def VALUE_INFINITE : Int := 32001

/-- Spec section 3: NONE = 32002. Modelled from the spec: the constant lives
in the types header, which is not among the sources. -/
def VALUE_NONE : Int := 32002

/-- Modelled from the spec: MAX_PLY is referenced by the spec without a
numeric value; the engine types header (not among the sources) sets it
to 246. -/
def MAX_PLY : Int := 246

/-- Spec section 3: MATE_IN_MAX_PLY = MATE - MAX_PLY. -/
def VALUE_MATE_IN_MAX_PLY : Int := VALUE_MATE - MAX_PLY

/-- Mirror negative of VALUE_MATE_IN_MAX_PLY (spec section 3: mirror negatives). -/
def VALUE_MATED_IN_MAX_PLY : Int := -VALUE_MATE + MAX_PLY

/-- Spec section 3: TB_WIN_IN_MAX_PLY = MATE_IN_MAX_PLY - MAX_PLY. -/
def VALUE_TB_WIN_IN_MAX_PLY : Int := VALUE_MATE_IN_MAX_PLY - MAX_PLY

/-- Mirror negative of VALUE_TB_WIN_IN_MAX_PLY. -/
def VALUE_TB_LOSS_IN_MAX_PLY : Int := -VALUE_TB_WIN_IN_MAX_PLY

/-- Modelled from the spec: mate_in(ply), the score of giving mate in ply
plies, defined in the types header as VALUE_MATE - ply. The spec says a
mate score encodes the distance to mate from the root. -/
def mate_in (ply : Int) : Int := VALUE_MATE - ply

/-- Modelled from the spec: mated_in(ply), the score of being mated in ply
plies, defined in the types header as -VALUE_MATE + ply. -/
def mated_in (ply : Int) : Int := -VALUE_MATE + ply

/-- Bound flags of a TT entry, a 2-bit mask (spec section 3). BOUND_NONE. -/
def BOUND_NONE : Nat := 0

/-- BOUND_UPPER bit of the TT bound mask. -/
def BOUND_UPPER : Nat := 1

/-- BOUND_LOWER bit of the TT bound mask. -/
def BOUND_LOWER : Nat := 2

/-- BOUND_EXACT = BOUND_UPPER bitor BOUND_LOWER. -/
def BOUND_EXACT : Nat := 3

/-- Moves are opaque 16-bit handles (spec section 3); modelled as Nat. -/
abbrev Move : Type := Nat

/-- MOVE_NONE sentinel. Modelled from the spec: the Move sentinels live in
the types header; MOVE_NONE is the all-zero handle. -/
def MOVE_NONE : Move := (0 : Nat)

/-- MOVE_NULL sentinel (the null move). Modelled from the spec: the value 65
is the engine value from the types header. -/
def MOVE_NULL : Move := (65 : Nat)

/-- Quiescence TT depth sentinel QS_CHECKS = 0 (spec section 3). -/
def DEPTH_QS_CHECKS : Int := 0

/-- Quiescence TT depth sentinel QS_NO_CHECKS = -1 (spec section 3). -/
def DEPTH_QS_NO_CHECKS : Int := -1

/-- DEPTH_NONE sentinel used when stashing a pure eval in the TT. Modelled
from the spec: the engine types header sets it to -6. -/
def DEPTH_NONE : Int := -6

/-- search.cpp lines 79-81: history and stats update bonus, based on depth.
Transcription of: return d > 13 ? 29 : 17 * d * d + 134 * d - 134. -/
def stat_bonus (d : Int) : Int :=
  if d > 13 then 29 else 17 * d * d + 134 * d - 134

/-- search.cpp lines 84-86: add a small random component to draw evaluations,
2 * (thisThread-nodes bitand 1) - 1, so VALUE_DRAW plus or minus one
depending on the parity of the node counter. -/
def value_draw (nodes : Nat) : Int :=
  VALUE_DRAW + (2 * ((nodes : Int) % 2) - 1)

/-- search.cpp lines 1867-1873: value_to_tt adjusts a mate or TB score from
plies-to-mate from the root to plies-to-mate from the current position
before it is stored in the TT. -/
def value_to_tt (v : Int) (ply : Int) : Int :=
  if v ≥ VALUE_TB_WIN_IN_MAX_PLY then v + ply
  else if v ≤ VALUE_TB_LOSS_IN_MAX_PLY then v - ply
  else v

/-- search.cpp lines 1882-1904: value_from_tt is the inverse of value_to_tt;
for mate scores close enough to the 50-move horizon it returns an optimal
TB score instead, to avoid potentially false mate scores. -/
def value_from_tt (v : Int) (ply : Int) (r50c : Int) : Int :=
  if v = VALUE_NONE then VALUE_NONE
  else if v ≥ VALUE_TB_WIN_IN_MAX_PLY then
    (if v ≥ VALUE_MATE_IN_MAX_PLY ∧ VALUE_MATE - v > 99 - r50c then
      VALUE_MATE_IN_MAX_PLY - 1
    else v - ply)
  else if v ≤ VALUE_TB_LOSS_IN_MAX_PLY then
    (if v ≤ VALUE_MATED_IN_MAX_PLY ∧ VALUE_MATE + v > 99 - r50c then
      VALUE_MATED_IN_MAX_PLY + 1
    else v + ply)
  else v

/-- C1 counterexample: the round trip is NOT the identity on all of
[-MATE, MATE] x [0, MAX_PLY) at rule-50 counter 0: at v = MATE - 100 (a
mate-in-100-plies score) and ply = 0, the 50-move-rule clamp of
value_from_tt fires (MATE - v = 100 > 99) and the round trip returns
MATE_IN_MAX_PLY - 1 instead of v. -/
theorem c1_roundtrip_counterexample :
    (-VALUE_MATE ≤ VALUE_MATE - 100 ∧ VALUE_MATE - 100 ≤ VALUE_MATE ∧
      (0 : Int) ≤ 0 ∧ (0 : Int) < MAX_PLY) ∧
    value_from_tt (value_to_tt (VALUE_MATE - 100) 0) 0 0 ≠ VALUE_MATE - 100 := by
  decide

/-- C1 (amended): for every non-mate, non-TB score, that is every v with
absolute value below TB_WIN_IN_MAX_PLY, and every ply in [0, MAX_PLY),
value_from_tt(value_to_tt(v, ply), ply, 0) = v; scores at or beyond
TB_WIN_IN_MAX_PLY may be clamped by the 50-move-rule guard. -/
theorem c1_roundtrip_nonmate (v ply : Int) (h1 : -VALUE_MATE ≤ v)
    (h2 : v ≤ VALUE_MATE) (h3 : 0 ≤ ply) (h4 : ply < MAX_PLY)
    (h5 : |v| < VALUE_TB_WIN_IN_MAX_PLY) :
    value_from_tt (value_to_tt v ply) ply 0 = v := by
  rw [abs_lt] at h5
  simp only [value_to_tt, value_from_tt, VALUE_TB_WIN_IN_MAX_PLY,
    VALUE_TB_LOSS_IN_MAX_PLY, VALUE_MATE_IN_MAX_PLY, VALUE_MATED_IN_MAX_PLY,
    VALUE_MATE, VALUE_NONE, MAX_PLY] at *
  split_ifs <;> omega

/-- Witness for c1_roundtrip_nonmate at v = 100, ply = 5. -/
theorem c1_roundtrip_nonmate_witness :
    value_from_tt (value_to_tt 100 5) 5 0 = 100 :=
  c1_roundtrip_nonmate 100 5 (by decide) (by decide) (by decide) (by decide)
    (by decide)

/-- C7: stat_bonus(d) equals 29 for d > 13 and 17 d^2 + 134 d - 134
otherwise, and it is monotone non-decreasing on [1, 13]. -/
theorem c7_stat_bonus_spec (d e : Int) :
    (13 < d → stat_bonus d = 29) ∧
    (d ≤ 13 → stat_bonus d = 17 * d * d + 134 * d - 134) ∧
    (1 ≤ d → d ≤ e → e ≤ 13 → stat_bonus d ≤ stat_bonus e) := by
  refine ⟨fun h => ?_, fun h => ?_, fun h1 h2 h3 => ?_⟩
  · simp [stat_bonus, h]
  · simp [stat_bonus, not_lt.mpr h]
  · have hd : ¬ (13 : Int) < d := by omega
    have he : ¬ (13 : Int) < e := by omega
    simp only [stat_bonus, gt_iff_lt, if_neg hd, if_neg he]
    have key : 0 ≤ (e - d) * (17 * (e + d) + 134) :=
      mul_nonneg (by omega) (by omega)
    nlinarith [key]

/-- Witness for c7_stat_bonus_spec: each conjunct applied at a concrete depth. -/
theorem c7_stat_bonus_spec_witness :
    stat_bonus 14 = 29 ∧ stat_bonus 2 = 17 * 2 * 2 + 134 * 2 - 134 ∧
      stat_bonus 2 ≤ stat_bonus 3 :=
  ⟨(c7_stat_bonus_spec 14 14).1 (by decide),
   (c7_stat_bonus_spec 2 2).2.1 (by decide),
   (c7_stat_bonus_spec 2 3).2.2 (by decide) (by decide) (by decide)⟩

/-- C10: a VALUE_NONE score coming from the TT (missing entry or a value
torn by a race) is propagated unchanged by value_from_tt for every ply and
every rule-50 counter, with no ply adjustment and no clamping. -/
theorem c10_value_from_tt_none (ply r50c : Int) :
    value_from_tt VALUE_NONE ply r50c = VALUE_NONE := by
  simp [value_from_tt]

/-! ## Aspiration windows (Thread::search, search.cpp lines 401-470) -/

/-- The window state carried around the aspiration re-search loop of
Thread::search: alpha, beta, delta and the fail-high counter. -/
structure AspState where
  alpha : Int
  beta : Int
  delta : Int
  failedHighCnt : Int
deriving DecidableEq

/-- External inputs of the aspiration loop: the root depth, the lazy-SMP
stagger counter, the recursive search call (an oracle from the window and
the adjusted depth to the returned best value) and the stop flag as
observed after the k-th search call. -/
structure AspEnv where
  rootDepth : Int
  searchAgainCounter : Int
  searchFn : Int → Int → Int → Int
  stopFn : Nat → Bool

/-- search.cpp line 422: adjustedDepth = max(1, rootDepth - failedHighCnt
- searchAgainCounter). -/
def aspAdjustedDepth (env : AspEnv) (s : AspState) : Int :=
  max 1 (env.rootDepth - s.failedHighCnt - env.searchAgainCounter)

/-- Result of the aspiration loop: broke on the stop flag, exited with an
in-window value, or ran out of fuel (never happens in the engine, which
loops until the window closes). -/
inductive AspResult where
  | stopped (k : Nat) (bestValue : Int) (s : AspState)
  | finished (k : Nat) (bestValue : Int) (s : AspState)
  | fuelOut (s : AspState)
deriving DecidableEq

/-- Transcription of the aspiration re-search loop of Thread::search
(search.cpp lines 420-470). Each pass calls the search with the current
window at the adjusted depth; if the stop flag is up the loop breaks; a
fail-low halves beta towards alpha, re-centres alpha below the returned
value and resets the fail-high counter; a fail-high widens beta and bumps
the fail-high counter; after either failure delta grows by delta/4 + 5
(C truncated division); an in-window value exits the loop. The UCI
reporting and the stable re-sort of the root moves do not touch the
window state and are not modelled. -/
def aspLoop (env : AspEnv) : Nat → Nat → AspState → AspResult
  | 0, _, s => .fuelOut s
  | fuel+1, k, s =>
    let bestValue := env.searchFn s.alpha s.beta (aspAdjustedDepth env s)
    if env.stopFn k then .stopped k bestValue s
    else if bestValue ≤ s.alpha then
      aspLoop env fuel (k+1)
        { alpha := max (bestValue - s.delta) (-VALUE_INFINITE)
          beta := Int.tdiv (s.alpha + s.beta) 2
          delta := s.delta + (Int.tdiv s.delta 4 + 5)
          failedHighCnt := 0 }
    else if bestValue ≥ s.beta then
      aspLoop env fuel (k+1)
        { alpha := s.alpha
          beta := min (bestValue + s.delta) VALUE_INFINITE
          delta := s.delta + (Int.tdiv s.delta 4 + 5)
          failedHighCnt := s.failedHighCnt + 1 }
    else .finished k bestValue s

/-- C5: the aspiration-window loop follows the spec rules. With the stop
flag down and bv the value returned by the search call of this pass: on a
fail-low (bv at or below alpha) the next pass runs with beta = (alpha +
beta)/2, alpha = max(bv - delta, -INF), failedHighCnt = 0 and delta grown
by delta/4 + 5; on a fail-high (bv at or above beta) with beta = min(bv +
delta, INF), the same delta growth and failedHighCnt incremented; an
in-window bv exits the loop with that value. -/
theorem c5_aspiration_window (env : AspEnv) (fuel k : Nat) (s : AspState)
    (bv : Int) (hbv : env.searchFn s.alpha s.beta (aspAdjustedDepth env s) = bv)
    (hstop : env.stopFn k = false) :
    (bv ≤ s.alpha →
      aspLoop env (fuel+1) k s =
        aspLoop env fuel (k+1)
          { alpha := max (bv - s.delta) (-VALUE_INFINITE)
            beta := Int.tdiv (s.alpha + s.beta) 2
            delta := s.delta + (Int.tdiv s.delta 4 + 5)
            failedHighCnt := 0 }) ∧
    (s.alpha < bv → s.beta ≤ bv →
      aspLoop env (fuel+1) k s =
        aspLoop env fuel (k+1)
          { alpha := s.alpha
            beta := min (bv + s.delta) VALUE_INFINITE
            delta := s.delta + (Int.tdiv s.delta 4 + 5)
            failedHighCnt := s.failedHighCnt + 1 }) ∧
    (s.alpha < bv → bv < s.beta →
      aspLoop env (fuel+1) k s = .finished k bv s) := by
  refine ⟨fun h => ?_, fun h1 h2 => ?_, fun h1 h2 => ?_⟩
  · simp [aspLoop, hbv, hstop, h]
  · simp [aspLoop, hbv, hstop, not_le.mpr h1, ge_iff_le, h2]
  · simp [aspLoop, hbv, hstop, not_le.mpr h1, ge_iff_le, not_le.mpr h2]

/-- Witness for c5_aspiration_window: a search oracle that always fails low
at the initial window (0, 10) with delta 17. -/
theorem c5_aspiration_window_witness :
    aspLoop
      { rootDepth := 10, searchAgainCounter := 0,
        searchFn := fun a _ _ => a, stopFn := fun _ => false } 1 0
      ⟨0, 10, 17, 0⟩ =
    aspLoop
      { rootDepth := 10, searchAgainCounter := 0,
        searchFn := fun a _ _ => a, stopFn := fun _ => false } 0 1
      { alpha := max (0 - 17) (-VALUE_INFINITE)
        beta := Int.tdiv (0 + 10) 2
        delta := 17 + (Int.tdiv 17 4 + 5)
        failedHighCnt := 0 } :=
  (c5_aspiration_window
      { rootDepth := 10, searchAgainCounter := 0,
        searchFn := fun a _ _ => a, stopFn := fun _ => false } 0 0
      ⟨0, 10, 17, 0⟩ 0 rfl rfl).1 (by decide)

/-! ## RootMove::extract_ponder_from_tt (search.cpp lines 2141-2165) -/

/-- Oracles consumed by extract_ponder_from_tt: making a move on a position,
the Zobrist key, the TT probe (hit together with the stored move), and the
legal-move list of a position. -/
structure PonderEnv (P : Type) where
  doMove : P → Move → P
  key : P → Nat
  ttProbeMove : Nat → Option Move
  legalMoves : P → List Move

/-- Transcription of RootMove::extract_ponder_from_tt. Called with a pv of
exactly one element: if pv[0] is MOVE_NONE it returns false; otherwise it
plays pv[0], probes the TT at the key of the reached position and, on a
hit whose stored move is in the legal-move list of that position, appends
that move to the pv; the move is then undone and the function returns
whether the pv now has more than one element. -/
def extract_ponder_from_tt (env : PonderEnv P) (pv : List Move) (pos : P) :
    Bool × List Move :=
  let m0 := pv.headD MOVE_NONE
  if m0 = MOVE_NONE then (false, pv)
  else
    let pos2 := env.doMove pos m0
    let pv2 :=
      match env.ttProbeMove (env.key pos2) with
      | some m => if m ∈ env.legalMoves pos2 then pv ++ [m] else pv
      | none => pv
    (decide (1 < pv2.length), pv2)

/-- C6: if extract_ponder_from_tt, called on a RootMove whose pv is the
single move m0, returns true, then afterwards the pv is [m0, m] for some
move m that is in the legal-move list of the position reached after
playing m0. -/
theorem c6_extract_ponder (P : Type) (env : PonderEnv P) (pos : P) (m0 : Move)
    (h : (extract_ponder_from_tt env [m0] pos).1 = true) :
    ∃ m, (extract_ponder_from_tt env [m0] pos).2 = [m0, m] ∧
      m ∈ env.legalMoves (env.doMove pos m0) := by
  by_cases h0 : m0 = MOVE_NONE
  · subst h0
    simp [extract_ponder_from_tt] at h
  · simp only [extract_ponder_from_tt, List.headD_cons, if_neg h0] at h ⊢
    cases hp : env.ttProbeMove (env.key (env.doMove pos m0)) with
    | none => simp only [hp] at h; simp at h
    | some m =>
      simp only [hp] at h ⊢
      by_cases hm : m ∈ env.legalMoves (env.doMove pos m0)
      · exact ⟨m, by simp [hm], hm⟩
      · rw [if_neg hm] at h; simp at h

/-- Witness for c6_extract_ponder: a TT probe returning move 5, legal in
the reached position, with pv [7]. -/
theorem c6_extract_ponder_witness :
    ∃ m, (extract_ponder_from_tt
        { doMove := fun p _ => p + 1, key := fun p => p,
          ttProbeMove := fun _ => some 5, legalMoves := fun _ => [5] }
        [7] (0 : Nat)).2 = [7, m] ∧ m ∈ ([5] : List Move) :=
  c6_extract_ponder Nat
    { doMove := fun p _ => p + 1, key := fun p => p,
      ttProbeMove := fun _ => some 5, legalMoves := fun _ => [5] }
    0 7 (by decide)

/-! ## The main search function (search.cpp lines 566-1403)

The early-return prefix of search (upcoming-repetition check, quiescence
dive, aborted-search and draw check, mate-distance pruning, TT cutoff) and
its epilogue after the moves loop (checkmate and stalemate detection, PV
clamp against the tablebase bound, final TT store) are transcribed in
full.  The middle of the function (steps 5-19: tablebase probe, static
evaluation, razoring, futility, null move, probcut, the moves loop) is a
single oracle: it either returns early with a value or reaches the end of
the moves loop with the loop outcome.  Observable effects are counted
explicitly: the number of do_move/undo_move pairs and the number of TT
stores. -/

/-- Effect counters of one search call: do_move/undo_move pairs done and
TT entries written. -/
structure Eff where
  doMoves : Nat
  ttWrites : Nat
deriving DecidableEq

/-- State at the end of the moves loop of search: the number of moves
searched, the running best value and best move, the (possibly raised)
alpha, the tablebase cap maxValue, and the effects accumulated by the
middle of the function. -/
structure LoopOut where
  moveCount : Nat
  bestValue : Int
  bestMove : Move
  alpha : Int
  maxValue : Int
  eff : Eff
deriving DecidableEq

/-- Outcome of the un-modelled middle of search (steps 5-19): either an
early return with a value, or the moves loop completed with outcome o. -/
inductive MiddleOut where
  | ret (v : Int) (e : Eff)
  | toLoopEnd (o : LoopOut)
deriving DecidableEq

/-- One call of the main search function: the node inputs (template flag,
stack slot data, window, depth), the shared state it reads (stop flag,
node counter, rule-50 count, TT probe outcome) and oracles for the
evaluator, the quiescence dive and the middle of the function. -/
structure SCtx where
  pv : Bool
  ply : Int
  alpha : Int
  beta : Int
  depth : Int
  cutNode : Bool
  stop : Bool
  nodes : Nat
  rule50 : Int
  hasGameCycle : Bool
  isDraw : Bool
  inCheck : Bool
  ttHit : Bool
  tteValue : Int
  tteDepth : Int
  tteBound : Nat
  excludedMove : Move
  pvIdxZero : Bool
  evaluate : Int
  qsearchFn : Int → Int → Int × Eff
  middle : Int → Int → Int → MiddleOut

/-- Epilogue of search after the moves loop (search.cpp lines 1368-1402):
with no counted move the best value becomes alpha under an active
excluded move (singular search fail-low), mated_in(ply) in check, DRAW
otherwise; at PV nodes the best value is clamped by the tablebase bound
maxValue; the final TT store happens unless an excluded move is active or
this is the root of a non-first MultiPV line.  History updates and the
ttPv flag propagation touch neither the value nor the counted effects. -/
def searchPostLoop (c : SCtx) (o : LoopOut) : Int × Eff :=
  let bestValue :=
    if o.moveCount = 0 then
      (if c.excludedMove ≠ MOVE_NONE then o.alpha
       else if c.inCheck then mated_in c.ply else VALUE_DRAW)
    else o.bestValue
  let bestValue := if c.pv then min bestValue o.maxValue else bestValue
  if c.excludedMove = MOVE_NONE ∧ ¬(c.pv ∧ c.ply = 0 ∧ ¬c.pvIdxZero) then
    (bestValue, { o.eff with ttWrites := o.eff.ttWrites + 1 })
  else (bestValue, o.eff)

/-- The remainder of search after its early-return prefix: the middle
oracle either returns a value or hands the moves-loop outcome to the
epilogue. -/
def searchRest (c : SCtx) (alpha beta ttValue : Int) : Int × Eff :=
  match c.middle alpha beta ttValue with
  | .ret v e => (v, e)
  | .toLoopEnd o => searchPostLoop c o

/-- Step 4 of search: the early TT cutoff at non-PV nodes, taken only when
the rule-50 counter is below 90; the history updates done inside the
cutoff block touch neither the TT nor the move counters. -/
def searchStep4 (c : SCtx) (alpha beta ttValue : Int) : Int × Eff :=
  if ¬c.pv ∧ c.ttHit ∧ c.tteDepth ≥ c.depth ∧ ttValue ≠ VALUE_NONE ∧
      (if ttValue ≥ beta then c.tteBound &&& BOUND_LOWER ≠ 0
       else c.tteBound &&& BOUND_UPPER ≠ 0) then
    (if c.rule50 < 90 then (ttValue, ⟨0, 0⟩)
     else searchRest c alpha beta ttValue)
  else searchRest c alpha beta ttValue

/-- Steps 3 and 4 of search with the window already tightened by
mate-distance pruning: the mate-distance return, then the TT probe with
the non-PV TT cutoff guarded by the rule-50 counter. -/
def searchStep3 (c : SCtx) (alpha beta : Int) : Int × Eff :=
  if ¬(c.pv ∧ c.ply = 0) ∧ alpha ≥ beta then (alpha, ⟨0, 0⟩)
  else
    searchStep4 c alpha beta
      (if c.ttHit then value_from_tt c.tteValue c.ply c.rule50 else VALUE_NONE)

/-- The body of search after the upcoming-repetition check, with the
possibly raised alpha (search.cpp lines 585-718): quiescence dive at
depth <= 0; at non-root nodes the aborted-search / immediate-draw /
ply-limit return and mate-distance pruning; the TT probe with the early
TT cutoff at non-PV nodes, taken only when the rule-50 counter is below
90. -/
def searchAfterCycle (c : SCtx) (alpha : Int) : Int × Eff :=
  if c.depth ≤ 0 then c.qsearchFn alpha c.beta
  else if ¬(c.pv ∧ c.ply = 0) ∧ (c.stop ∨ c.isDraw ∨ c.ply ≥ MAX_PLY) then
    ((if c.ply ≥ MAX_PLY ∧ ¬c.inCheck then c.evaluate else value_draw c.nodes),
      ⟨0, 0⟩)
  else
    searchStep3 c
      (if ¬(c.pv ∧ c.ply = 0) then max (mated_in c.ply) alpha else alpha)
      (if ¬(c.pv ∧ c.ply = 0) then min (mate_in (c.ply + 1)) c.beta else c.beta)

/-- The main search function (search.cpp line 567): the upcoming-repetition
check may raise alpha to the randomized draw value and return it when the
window closes; otherwise the body runs with the possibly raised alpha. -/
def search (c : SCtx) : Int × Eff :=
  if c.rule50 ≥ 3 ∧ c.alpha < VALUE_DRAW ∧ ¬(c.pv ∧ c.ply = 0) ∧ c.hasGameCycle then
    let alpha := value_draw c.nodes
    if alpha ≥ c.beta then (alpha, ⟨0, 0⟩)
    else searchAfterCycle c alpha
  else searchAfterCycle c c.alpha

/-- A concrete non-root non-PV search call with the stop flag already set
and an even node counter, used to settle C2. -/
def c2Ctx : SCtx where
  pv := false
  ply := 1
  alpha := -50
  beta := 50
  depth := 1
  cutNode := false
  stop := true
  nodes := 0
  rule50 := 0
  hasGameCycle := false
  isDraw := false
  inCheck := false
  ttHit := false
  tteValue := 0
  tteDepth := 0
  tteBound := 0
  excludedMove := MOVE_NONE
  pvIdxZero := true
  evaluate := 17
  qsearchFn := fun _ _ => (0, ⟨0, 0⟩)
  middle := fun _ _ _ => .ret 0 ⟨0, 0⟩

/-- C2 counterexample: at a non-root node with the stop flag already set,
search returns the randomized draw value value_draw = DRAW +- 1 (here
DRAW - 1 for an even node counter), not DRAW, so the claim as stated
fails. -/
theorem c2_stop_counterexample :
    c2Ctx.stop = true ∧ ¬(c2Ctx.pv = true ∧ c2Ctx.ply = 0) ∧
      (search c2Ctx).1 ≠ VALUE_DRAW := by
  decide

/-- C2 (amended): for every call of search at a non-root node with depth
at least 1 and ply below MAX_PLY, if the stop flag is already set the
call returns value_draw(thread), which is DRAW - 1 or DRAW + 1 by the
node-counter parity, after zero do_move/undo_move pairs and zero TT
writes.  (At depth <= 0 the call dives into qsearch, which has no stop
check, and at the root the moves loop runs; both are outside the amended
claim.) -/
theorem c2_stop_returns_value_draw (c : SCtx) (hstop : c.stop = true)
    (hroot : ¬(c.pv = true ∧ c.ply = 0)) (hdepth : 1 ≤ c.depth)
    (hply : c.ply < MAX_PLY) :
    search c = (value_draw c.nodes, ⟨0, 0⟩) := by
  have hd : ¬ c.depth ≤ 0 := by omega
  have hply2 : ¬ (c.ply ≥ MAX_PLY ∧ ¬ c.inCheck = true) := fun h => absurd h.1 (by omega)
  simp only [search, searchAfterCycle, if_neg hd,
    if_pos (And.intro hroot (Or.inl hstop)), if_neg hply2]
  split_ifs <;> rfl

/-- Witness for c2_stop_returns_value_draw at the concrete context c2Ctx. -/
theorem c2_stop_returns_value_draw_witness :
    search c2Ctx = (value_draw c2Ctx.nodes, ⟨0, 0⟩) :=
  c2_stop_returns_value_draw c2Ctx rfl (by decide) (by decide) (by decide)

/-- C3: at a non-PV node that reaches the TT-probe step (not stopped, no
draw, ply below MAX_PLY, depth at least 1, no upcoming-repetition hit,
mate-distance pruning vacuous on the window), a TT hit with stored depth
at least the current depth, a non-NONE adjusted value and a bound
matching the window makes search return ttValue when the rule-50 counter
is below 90; when it is 90 or more, search does not take the cutoff and
proceeds with the remainder of the function. -/
theorem c3_nonpv_tt_cutoff (c : SCtx) (hpv : c.pv = false)
    (hstop : c.stop = false) (hdraw : c.isDraw = false)
    (hcycle : c.hasGameCycle = false) (hply : c.ply < MAX_PLY)
    (hdepth : 1 ≤ c.depth) (hmd1 : mated_in c.ply ≤ c.alpha)
    (hmd2 : c.beta ≤ mate_in (c.ply + 1)) (hab : c.alpha < c.beta)
    (hhit : c.ttHit = true) (httd : c.depth ≤ c.tteDepth)
    (httv : value_from_tt c.tteValue c.ply c.rule50 ≠ VALUE_NONE)
    (hbound : if value_from_tt c.tteValue c.ply c.rule50 ≥ c.beta
      then c.tteBound &&& BOUND_LOWER ≠ 0
      else c.tteBound &&& BOUND_UPPER ≠ 0) :
    (c.rule50 < 90 →
      search c = (value_from_tt c.tteValue c.ply c.rule50, ⟨0, 0⟩)) ∧
    (90 ≤ c.rule50 →
      search c = searchRest c c.alpha c.beta
        (value_from_tt c.tteValue c.ply c.rule50)) := by
  have hroot : ¬(c.pv = true ∧ c.ply = 0) := by simp [hpv]
  have habort : ¬(¬(c.pv = true ∧ c.ply = 0) ∧
      (c.stop = true ∨ c.isDraw = true ∨ c.ply ≥ MAX_PLY)) := by
    intro h
    rcases h.2 with h2 | h2 | h2
    · rw [hstop] at h2; exact absurd h2 (by simp)
    · rw [hdraw] at h2; exact absurd h2 (by simp)
    · omega
  have e1 : search c = searchAfterCycle c c.alpha := by
    unfold search
    rw [if_neg]
    intro h
    rw [hcycle] at h
    exact absurd h.2.2.2 (by simp)
  have e2 : searchAfterCycle c c.alpha = searchStep3 c c.alpha c.beta := by
    unfold searchAfterCycle
    rw [if_neg (by omega : ¬ c.depth ≤ 0), if_neg habort, if_pos hroot,
      if_pos hroot, max_eq_right hmd1, min_eq_right hmd2]
  have e3 : searchStep3 c c.alpha c.beta =
      searchStep4 c c.alpha c.beta (value_from_tt c.tteValue c.ply c.rule50) := by
    unfold searchStep3
    rw [if_neg (fun h => absurd h.2 (not_le.mpr hab)), hhit, if_pos rfl]
  have e4 : searchStep4 c c.alpha c.beta (value_from_tt c.tteValue c.ply c.rule50) =
      if c.rule50 < 90 then (value_from_tt c.tteValue c.ply c.rule50, ⟨0, 0⟩)
      else searchRest c c.alpha c.beta (value_from_tt c.tteValue c.ply c.rule50) := by
    unfold searchStep4
    rw [if_pos ⟨by simp [hpv], hhit, by omega, httv, hbound⟩]
  refine ⟨fun h => ?_, fun h => ?_⟩
  · rw [e1, e2, e3, e4, if_pos h]
  · rw [e1, e2, e3, e4, if_neg (by omega)]

/-- A concrete context for the C3 witness: non-PV node with a TT hit of
depth 5 and a LOWER bound whose value 40 is at or above beta = 30, with
rule-50 counter 0. -/
def c3Ctx : SCtx where
  pv := false
  ply := 2
  alpha := 29
  beta := 30
  depth := 3
  cutNode := true
  stop := false
  nodes := 4
  rule50 := 0
  hasGameCycle := false
  isDraw := false
  inCheck := false
  ttHit := true
  tteValue := 40
  tteDepth := 5
  tteBound := BOUND_LOWER
  excludedMove := MOVE_NONE
  pvIdxZero := true
  evaluate := 12
  qsearchFn := fun _ _ => (0, ⟨0, 0⟩)
  middle := fun _ _ _ => .ret 0 ⟨0, 0⟩

/-- Witness for c3_nonpv_tt_cutoff: at c3Ctx the rule-50 counter is 0, so
search returns the adjusted TT value 40. -/
theorem c3_nonpv_tt_cutoff_witness :
    search c3Ctx = (value_from_tt c3Ctx.tteValue c3Ctx.ply c3Ctx.rule50, ⟨0, 0⟩) :=
  (c3_nonpv_tt_cutoff c3Ctx rfl rfl rfl rfl (by decide) (by decide)
    (by decide) (by decide) (by decide) rfl (by decide) (by decide)
    (by decide)).1 (by decide)

/-- C4: when the middle of search completes the moves loop with
moveCount = 0 (no move searched) and no tablebase cap is active, the
value search returns from its epilogue is alpha under an active excluded
move (singular-extension search), mated_in(ply) when the side to move is
in check, and DRAW (stalemate) otherwise. -/
theorem c4_no_legal_moves (c : SCtx) (alpha beta ttValue : Int) (o : LoopOut)
    (hmid : c.middle alpha beta ttValue = .toLoopEnd o)
    (hmc : o.moveCount = 0) (hmax : o.maxValue = VALUE_INFINITE)
    (hply1 : 0 ≤ c.ply) (hply2 : c.ply < MAX_PLY)
    (halpha : o.alpha ≤ VALUE_INFINITE) :
    (searchRest c alpha beta ttValue).1 =
      (if c.excludedMove ≠ MOVE_NONE then o.alpha
       else if c.inCheck then mated_in c.ply else VALUE_DRAW) := by
  simp only [searchRest, hmid, searchPostLoop, hmc, if_pos rfl, hmax]
  have hbv : ∀ x : Int, x ≤ VALUE_INFINITE → min x VALUE_INFINITE = x :=
    fun x hx => min_eq_left hx
  split_ifs with h1 h2 h3 <;>
    simp_all [hbv, mated_in, mate_in, VALUE_MATE, VALUE_INFINITE, VALUE_DRAW,
      MAX_PLY] <;> omega

/-- A concrete context for the C4 witness: an in-check node whose middle
oracle reports an empty moves loop, no excluded move and no tablebase
cap, so the epilogue produces mated_in(ply). -/
def c4Ctx : SCtx where
  pv := false
  ply := 3
  alpha := -50
  beta := 50
  depth := 2
  cutNode := false
  stop := false
  nodes := 0
  rule50 := 0
  hasGameCycle := false
  isDraw := false
  inCheck := true
  ttHit := false
  tteValue := 0
  tteDepth := 0
  tteBound := 0
  excludedMove := MOVE_NONE
  pvIdxZero := true
  evaluate := 0
  qsearchFn := fun _ _ => (0, ⟨0, 0⟩)
  middle := fun _ _ _ =>
    .toLoopEnd ⟨0, -VALUE_INFINITE, MOVE_NONE, -50, VALUE_INFINITE, ⟨0, 0⟩⟩

/-- Witness for c4_no_legal_moves: at c4Ctx (in check, no excluded move)
the epilogue returns mated_in 3. -/
theorem c4_no_legal_moves_witness :
    (searchRest c4Ctx (-50) 50 0).1 = mated_in 3 :=
  c4_no_legal_moves c4Ctx (-50) 50 0
    ⟨0, -VALUE_INFINITE, MOVE_NONE, -50, VALUE_INFINITE, ⟨0, 0⟩⟩
    rfl rfl rfl (by decide) (by decide) (by decide)

/-! ## Quiescence search (search.cpp lines 1407-1631 qsearch and
lines 1636-1860 qsearch_hybrid)

Both functions are transcribed in full over oracle interfaces for the
position layer and the move picker.  The transposition table is a
key-indexed map threaded through the calls, the search stack is a
function from slot index to frame, and the PV built by update_pv is the
returned move list.  qsearch writes no history table entries; its only
stack-frame writes are ply, inCheck, ttHit, staticEval, currentMove and
the continuation-history pointer, all modelled. -/

/-- A TT entry as read and written by the quiescence search. -/
structure TTE where
  value : Int
  eval : Int
  depth : Int
  bound : Nat
  move : Move
  pv : Bool
deriving DecidableEq

/-- The TT as a key-indexed association list. -/
def TTMap : Type := List (Nat × TTE)

/-- TT.probe: the entry stored under a key, if any. -/
def ttprobe : TTMap → Nat → Option TTE
  | [], _ => none
  | (k2, e) :: rest, k => if k2 = k then some e else ttprobe rest k

/-- TTEntry::save: store an entry under a key, replacing the previous one. -/
def ttsave : TTMap → Nat → TTE → TTMap
  | [], k, e => [(k, e)]
  | (k2, e2) :: rest, k, e =>
    if k2 = k then (k, e) :: rest else (k2, e2) :: ttsave rest k e

/-- A continuation-history pointer: the indices
[inCheck][captureOrPromotion][piece][to] selecting one piece-to table of
the thread continuation-history array.  The tables themselves are read
through the contHistVal oracle and are not written by qsearch. -/
def CHKey : Type := Bool × Bool × Nat × Nat

/-- One frame of the search stack, with the fields qsearch reads or
writes. -/
structure Frame where
  ply : Int
  currentMove : Move
  staticEval : Int
  inCheck : Bool
  ttHit : Bool
  contHist : CHKey

/-- The search stack as a function from slot index to frame; slots below
the current one are the sentinel and parent frames. -/
def StackF : Type := Int → Frame

/-- Pointwise update of one stack slot. -/
def upd (st : StackF) (i : Int) (g : Frame → Frame) : StackF :=
  fun j => if j = i then g (st j) else st j

/-- The oracles consumed by the quiescence search: the position layer, the
move picker, the two evaluators and the engine constants that live in
headers outside the sources (Tempo, VALUE_KNOWN_WIN,
CounterMovePruneThreshold). -/
structure QOr (P : Type) where
  checkers : P → Bool
  isDraw : P → Int → Bool
  key : P → Nat
  rule50 : P → Int
  evaluate : P → Int
  evaluate_hybrid : P → Int
  tempo : Int
  knownWin : Int
  cmPruneThreshold : Int
  givesCheck : P → Move → Bool
  capOrPromo : P → Move → Bool
  advancedPawnPush : P → Move → Bool
  capturedValueEG : P → Move → Int
  seeGe : P → Move → Int → Bool
  isDiscoveryCheck : P → Move → Bool
  legal : P → Move → Bool
  movedPiece : P → Move → Nat
  toSq : Move → Nat
  doMove : P → Move → P
  contHistVal : CHKey → Nat → Nat → Int
  pickMoves : P → Move → Int → Nat → List Move

/-- The running state of the qsearch moves loop: best value, alpha, best
move, move counter, and the threaded TT, stack and PV. -/
structure QLoop where
  bestValue : Int
  alpha : Int
  bestMove : Move
  moveCount : Int
  tt : TTMap
  st : StackF
  pv : List Move

/-- The futility-pruning block of the qsearch moves loop (search.cpp lines
1531-1555), shared verbatim by qsearch and qsearch_hybrid: some bv means
the move is skipped (continue) with bestValue updated to bv; none means
fall through to the SEE test. -/
def qsFutility (O : QOr P) (pos : P) (m : Move) (givesCheck : Bool)
    (bestValue alpha futilityBase : Int) (moveCount : Int) : Option Int :=
  if bestValue > VALUE_TB_LOSS_IN_MAX_PLY ∧ ¬givesCheck ∧
      futilityBase > -O.knownWin ∧ ¬O.advancedPawnPush pos m then
    if moveCount > 2 then some bestValue
    else
      let futilityValue := futilityBase + O.capturedValueEG pos m
      if futilityValue ≤ alpha then some (max bestValue futilityValue)
      else if futilityBase ≤ alpha ∧ ¬O.seeGe pos m (VALUE_ZERO + 1) then
        some (max bestValue futilityBase)
      else none
  else none

/-- The moves loop of qsearch (search.cpp lines 1521-1612): futility
pruning, SEE pruning, the legality check, counter-move pruning from the
two continuation histories of the previous plies, then make-search-unmake
through rec (the recursive qsearch call at the next stack slot with depth
minus one), with update of the best value and a fail-high break. -/
def qsearchLoop (O : QOr P) (pvNode : Bool) (pos : P)
    (si beta depth futilityBase : Int) (inCheck : Bool) (k0 k1 : CHKey)
    (rec : P → TTMap → StackF → Int → Int → Int × TTMap × StackF × List Move) :
    List Move → QLoop → QLoop
  | [], s => s
  | m :: ms, s =>
    let givesCheck := O.givesCheck pos m
    let captureOrPromotion := O.capOrPromo pos m
    let s1 : QLoop := { s with moveCount := s.moveCount + 1 }
    match qsFutility O pos m givesCheck s1.bestValue s1.alpha futilityBase
        s1.moveCount with
    | some bv =>
      qsearchLoop O pvNode pos si beta depth futilityBase inCheck k0 k1 rec ms
        { s1 with bestValue := bv }
    | none =>
      if s1.bestValue > VALUE_TB_LOSS_IN_MAX_PLY ∧
          ¬(givesCheck ∧ O.isDiscoveryCheck pos m) ∧
          ¬O.seeGe pos m VALUE_ZERO then
        qsearchLoop O pvNode pos si beta depth futilityBase inCheck k0 k1 rec ms s1
      else if ¬O.legal pos m then
        qsearchLoop O pvNode pos si beta depth futilityBase inCheck k0 k1 rec ms
          { s1 with moveCount := s1.moveCount - 1 }
      else
        let st2 := upd s1.st si (fun f =>
          { f with currentMove := m,
                   contHist := (inCheck, captureOrPromotion,
                     O.movedPiece pos m, O.toSq m) })
        if ¬captureOrPromotion ∧ s1.bestValue > VALUE_TB_LOSS_IN_MAX_PLY ∧
            O.contHistVal k0 (O.movedPiece pos m) (O.toSq m) < O.cmPruneThreshold ∧
            O.contHistVal k1 (O.movedPiece pos m) (O.toSq m) < O.cmPruneThreshold then
          qsearchLoop O pvNode pos si beta depth futilityBase inCheck k0 k1 rec ms
            { s1 with st := st2 }
        else
          let r := rec (O.doMove pos m) s1.tt st2 (-beta) (-s1.alpha)
          let value := -r.1
          let s2 : QLoop := { s1 with tt := r.2.1, st := r.2.2.1 }
          if value > s2.bestValue then
            if value > s2.alpha then
              let pv2 := if pvNode then m :: r.2.2.2 else s2.pv
              if pvNode ∧ value < beta then
                qsearchLoop O pvNode pos si beta depth futilityBase inCheck k0 k1
                  rec ms
                  { s2 with bestValue := value, alpha := value, bestMove := m,
                            pv := pv2 }
              else
                { s2 with bestValue := value, bestMove := m, pv := pv2 }
            else
              qsearchLoop O pvNode pos si beta depth futilityBase inCheck k0 k1
                rec ms { s2 with bestValue := value }
          else
            qsearchLoop O pvNode pos si beta depth futilityBase inCheck k0 k1
              rec ms s2

/-- The tail of qsearch after the static-evaluation block: move picking,
the moves loop, the mated-in-check detection and the final TT store
(search.cpp lines 1510-1630). -/
def qsearchAfterEval (O : QOr P) (pvNode : Bool) (pos : P) (tt : TTMap)
    (st : StackF) (si ply beta depth oldAlpha ttDepth : Int) (posKey : Nat)
    (ttMove : Move) (pvHit : Bool) (inCheck : Bool)
    (bestValue alpha futilityBase staticEval : Int)
    (rec : P → TTMap → StackF → Int → Int → Int × TTMap × StackF × List Move) :
    Int × TTMap × StackF × List Move :=
  let k0 := (st (si - 1)).contHist
  let k1 := (st (si - 2)).contHist
  let moves := O.pickMoves pos ttMove depth (O.toSq (st (si - 1)).currentMove)
  let s := qsearchLoop O pvNode pos si beta depth futilityBase inCheck k0 k1
    rec moves ⟨bestValue, alpha, MOVE_NONE, 0, tt, st, []⟩
  if inCheck ∧ s.bestValue = -VALUE_INFINITE then
    (mated_in ply, s.tt, s.st, s.pv)
  else
    (s.bestValue,
     ttsave s.tt posKey
       ⟨value_to_tt s.bestValue ply, staticEval, ttDepth,
        (if s.bestValue ≥ beta then BOUND_LOWER
         else if pvNode ∧ s.bestValue > oldAlpha then BOUND_EXACT
         else BOUND_UPPER),
        s.bestMove, pvHit⟩,
     s.st, s.pv)

/-- qsearch (search.cpp lines 1407-1631), fuel-indexed: the draw and
ply-limit return, the TT probe with the non-PV cutoff at the quiescence
TT depths, the static-evaluation block with stand-pat return and eval
stash on a TT miss, then the moves loop and the epilogue.  The recursive
call at the child slot runs on one unit less fuel; the engine bounds the
recursion by MAX_PLY through the ply check. -/
def qsearchM (O : QOr P) : Nat → Bool → P → TTMap → StackF → Int → Int →
    Int → Int → Int × TTMap × StackF × List Move
  | 0, _, _, tt, st, _, _, _, _ => (0, tt, st, [])
  | fuel + 1, pvNode, pos, tt, st, si, alpha, beta, depth =>
    let ply := (st si).ply
    let oldAlpha := alpha
    let inCheck := O.checkers pos
    let st2 := upd (upd st (si + 1) (fun f => { f with ply := ply + 1 })) si
      (fun f => { f with inCheck := inCheck })
    if O.isDraw pos ply ∨ ply ≥ MAX_PLY then
      ((if ply ≥ MAX_PLY ∧ ¬inCheck then O.evaluate pos else VALUE_DRAW),
        tt, st2, [])
    else
      let ttDepth := if inCheck ∨ depth ≥ DEPTH_QS_CHECKS then DEPTH_QS_CHECKS
        else DEPTH_QS_NO_CHECKS
      let posKey := O.key pos
      let tteOpt := ttprobe tt posKey
      let ttHit := tteOpt.isSome
      let tte := tteOpt.getD ⟨0, 0, 0, 0, MOVE_NONE, false⟩
      let st3 := upd st2 si (fun f => { f with ttHit := ttHit })
      let ttValue := if ttHit then value_from_tt tte.value ply (O.rule50 pos)
        else VALUE_NONE
      let ttMove := if ttHit then tte.move else MOVE_NONE
      let pvHit := ttHit && tte.pv
      if ¬pvNode ∧ ttHit ∧ tte.depth ≥ ttDepth ∧ ttValue ≠ VALUE_NONE ∧
          (if ttValue ≥ beta then tte.bound &&& BOUND_LOWER ≠ 0
           else tte.bound &&& BOUND_UPPER ≠ 0) then
        (ttValue, tt, st3, [])
      else if inCheck then
        qsearchAfterEval O pvNode pos tt
          (upd st3 si (fun f => { f with staticEval := VALUE_NONE }))
          si ply beta depth oldAlpha ttDepth posKey ttMove pvHit inCheck
          (-VALUE_INFINITE) alpha (-VALUE_INFINITE) VALUE_NONE
          (fun pos2 tt2 stc a b =>
            qsearchM O fuel pvNode pos2 tt2 stc (si + 1) a b (depth - 1))
      else
        let staticEval :=
          if ttHit then (if tte.eval = VALUE_NONE then O.evaluate pos else tte.eval)
          else
            if (st3 (si - 1)).currentMove ≠ MOVE_NULL then O.evaluate pos
            else -(st3 (si - 1)).staticEval + 2 * O.tempo
        let bestValue0 :=
          if ttHit ∧ ttValue ≠ VALUE_NONE ∧
              (tte.bound &&& (if ttValue > staticEval then BOUND_LOWER
                else BOUND_UPPER) ≠ 0) then ttValue
          else staticEval
        let st4 := upd st3 si (fun f => { f with staticEval := staticEval })
        if bestValue0 ≥ beta then
          (bestValue0,
           (if ttHit then tt
            else ttsave tt posKey
              ⟨value_to_tt bestValue0 ply, staticEval, DEPTH_NONE, BOUND_LOWER,
               MOVE_NONE, false⟩),
           st4, [])
        else
          qsearchAfterEval O pvNode pos tt st4 si ply beta depth oldAlpha
            ttDepth posKey ttMove pvHit inCheck bestValue0
            (if pvNode ∧ bestValue0 > alpha then bestValue0 else alpha)
            (bestValue0 + 155) staticEval
            (fun pos2 tt2 stc a b =>
              qsearchM O fuel pvNode pos2 tt2 stc (si + 1) a b (depth - 1))

/-- The moves loop of qsearch_hybrid (search.cpp lines 1750-1841): the
source text is line-for-line the text of the qsearch moves loop; the
recursive call it forwards to rec is qsearch_hybrid instead of qsearch. -/
def qsearchHLoop (O : QOr P) (pvNode : Bool) (pos : P)
    (si beta depth futilityBase : Int) (inCheck : Bool) (k0 k1 : CHKey)
    (rec : P → TTMap → StackF → Int → Int → Int × TTMap × StackF × List Move) :
    List Move → QLoop → QLoop
  | [], s => s
  | m :: ms, s =>
    let givesCheck := O.givesCheck pos m
    let captureOrPromotion := O.capOrPromo pos m
    let s1 : QLoop := { s with moveCount := s.moveCount + 1 }
    match qsFutility O pos m givesCheck s1.bestValue s1.alpha futilityBase
        s1.moveCount with
    | some bv =>
      qsearchHLoop O pvNode pos si beta depth futilityBase inCheck k0 k1 rec ms
        { s1 with bestValue := bv }
    | none =>
      if s1.bestValue > VALUE_TB_LOSS_IN_MAX_PLY ∧
          ¬(givesCheck ∧ O.isDiscoveryCheck pos m) ∧
          ¬O.seeGe pos m VALUE_ZERO then
        qsearchHLoop O pvNode pos si beta depth futilityBase inCheck k0 k1 rec ms s1
      else if ¬O.legal pos m then
        qsearchHLoop O pvNode pos si beta depth futilityBase inCheck k0 k1 rec ms
          { s1 with moveCount := s1.moveCount - 1 }
      else
        let st2 := upd s1.st si (fun f =>
          { f with currentMove := m,
                   contHist := (inCheck, captureOrPromotion,
                     O.movedPiece pos m, O.toSq m) })
        if ¬captureOrPromotion ∧ s1.bestValue > VALUE_TB_LOSS_IN_MAX_PLY ∧
            O.contHistVal k0 (O.movedPiece pos m) (O.toSq m) < O.cmPruneThreshold ∧
            O.contHistVal k1 (O.movedPiece pos m) (O.toSq m) < O.cmPruneThreshold then
          qsearchHLoop O pvNode pos si beta depth futilityBase inCheck k0 k1 rec ms
            { s1 with st := st2 }
        else
          let r := rec (O.doMove pos m) s1.tt st2 (-beta) (-s1.alpha)
          let value := -r.1
          let s2 : QLoop := { s1 with tt := r.2.1, st := r.2.2.1 }
          if value > s2.bestValue then
            if value > s2.alpha then
              let pv2 := if pvNode then m :: r.2.2.2 else s2.pv
              if pvNode ∧ value < beta then
                qsearchHLoop O pvNode pos si beta depth futilityBase inCheck k0 k1
                  rec ms
                  { s2 with bestValue := value, alpha := value, bestMove := m,
                            pv := pv2 }
              else
                { s2 with bestValue := value, bestMove := m, pv := pv2 }
            else
              qsearchHLoop O pvNode pos si beta depth futilityBase inCheck k0 k1
                rec ms { s2 with bestValue := value }
          else
            qsearchHLoop O pvNode pos si beta depth futilityBase inCheck k0 k1
              rec ms s2

/-- The tail of qsearch_hybrid after the static-evaluation block, the same
source text as the qsearch tail. -/
def qsearchHAfterEval (O : QOr P) (pvNode : Bool) (pos : P) (tt : TTMap)
    (st : StackF) (si ply beta depth oldAlpha ttDepth : Int) (posKey : Nat)
    (ttMove : Move) (pvHit : Bool) (inCheck : Bool)
    (bestValue alpha futilityBase staticEval : Int)
    (rec : P → TTMap → StackF → Int → Int → Int × TTMap × StackF × List Move) :
    Int × TTMap × StackF × List Move :=
  let k0 := (st (si - 1)).contHist
  let k1 := (st (si - 2)).contHist
  let moves := O.pickMoves pos ttMove depth (O.toSq (st (si - 1)).currentMove)
  let s := qsearchHLoop O pvNode pos si beta depth futilityBase inCheck k0 k1
    rec moves ⟨bestValue, alpha, MOVE_NONE, 0, tt, st, []⟩
  if inCheck ∧ s.bestValue = -VALUE_INFINITE then
    (mated_in ply, s.tt, s.st, s.pv)
  else
    (s.bestValue,
     ttsave s.tt posKey
       ⟨value_to_tt s.bestValue ply, staticEval, ttDepth,
        (if s.bestValue ≥ beta then BOUND_LOWER
         else if pvNode ∧ s.bestValue > oldAlpha then BOUND_EXACT
         else BOUND_UPPER),
        s.bestMove, pvHit⟩,
     s.st, s.pv)

/-- qsearch_hybrid (search.cpp lines 1636-1860): the source text is the
qsearch text with the three evaluate(pos) call sites replaced by
evaluate_hybrid(pos) and the recursive call replaced by qsearch_hybrid. -/
def qsearch_hybridM (O : QOr P) : Nat → Bool → P → TTMap → StackF → Int →
    Int → Int → Int → Int × TTMap × StackF × List Move
  | 0, _, _, tt, st, _, _, _, _ => (0, tt, st, [])
  | fuel + 1, pvNode, pos, tt, st, si, alpha, beta, depth =>
    let ply := (st si).ply
    let oldAlpha := alpha
    let inCheck := O.checkers pos
    let st2 := upd (upd st (si + 1) (fun f => { f with ply := ply + 1 })) si
      (fun f => { f with inCheck := inCheck })
    if O.isDraw pos ply ∨ ply ≥ MAX_PLY then
      ((if ply ≥ MAX_PLY ∧ ¬inCheck then O.evaluate_hybrid pos else VALUE_DRAW),
        tt, st2, [])
    else
      let ttDepth := if inCheck ∨ depth ≥ DEPTH_QS_CHECKS then DEPTH_QS_CHECKS
        else DEPTH_QS_NO_CHECKS
      let posKey := O.key pos
      let tteOpt := ttprobe tt posKey
      let ttHit := tteOpt.isSome
      let tte := tteOpt.getD ⟨0, 0, 0, 0, MOVE_NONE, false⟩
      let st3 := upd st2 si (fun f => { f with ttHit := ttHit })
      let ttValue := if ttHit then value_from_tt tte.value ply (O.rule50 pos)
        else VALUE_NONE
      let ttMove := if ttHit then tte.move else MOVE_NONE
      let pvHit := ttHit && tte.pv
      if ¬pvNode ∧ ttHit ∧ tte.depth ≥ ttDepth ∧ ttValue ≠ VALUE_NONE ∧
          (if ttValue ≥ beta then tte.bound &&& BOUND_LOWER ≠ 0
           else tte.bound &&& BOUND_UPPER ≠ 0) then
        (ttValue, tt, st3, [])
      else if inCheck then
        qsearchHAfterEval O pvNode pos tt
          (upd st3 si (fun f => { f with staticEval := VALUE_NONE }))
          si ply beta depth oldAlpha ttDepth posKey ttMove pvHit inCheck
          (-VALUE_INFINITE) alpha (-VALUE_INFINITE) VALUE_NONE
          (fun pos2 tt2 stc a b =>
            qsearch_hybridM O fuel pvNode pos2 tt2 stc (si + 1) a b (depth - 1))
      else
        let staticEval :=
          if ttHit then
            (if tte.eval = VALUE_NONE then O.evaluate_hybrid pos else tte.eval)
          else
            if (st3 (si - 1)).currentMove ≠ MOVE_NULL then O.evaluate_hybrid pos
            else -(st3 (si - 1)).staticEval + 2 * O.tempo
        let bestValue0 :=
          if ttHit ∧ ttValue ≠ VALUE_NONE ∧
              (tte.bound &&& (if ttValue > staticEval then BOUND_LOWER
                else BOUND_UPPER) ≠ 0) then ttValue
          else staticEval
        let st4 := upd st3 si (fun f => { f with staticEval := staticEval })
        if bestValue0 ≥ beta then
          (bestValue0,
           (if ttHit then tt
            else ttsave tt posKey
              ⟨value_to_tt bestValue0 ply, staticEval, DEPTH_NONE, BOUND_LOWER,
               MOVE_NONE, false⟩),
           st4, [])
        else
          qsearchHAfterEval O pvNode pos tt st4 si ply beta depth oldAlpha
            ttDepth posKey ttMove pvHit inCheck bestValue0
            (if pvNode ∧ bestValue0 > alpha then bestValue0 else alpha)
            (bestValue0 + 155) staticEval
            (fun pos2 tt2 stc a b =>
              qsearch_hybridM O fuel pvNode pos2 tt2 stc (si + 1) a b (depth - 1))

/-- The two moves loops are the same function of their inputs: the loop
bodies contain no evaluator call, so the transcriptions agree for every
recursive-call oracle rec. -/
theorem qsearchLoop_eq (O : QOr P) (pvNode : Bool) (pos : P)
    (si beta depth futilityBase : Int) (inCheck : Bool) (k0 k1 : CHKey)
    (rec : P → TTMap → StackF → Int → Int → Int × TTMap × StackF × List Move)
    (ms : List Move) (s : QLoop) :
    qsearchLoop O pvNode pos si beta depth futilityBase inCheck k0 k1 rec ms s =
    qsearchHLoop O pvNode pos si beta depth futilityBase inCheck k0 k1 rec ms s := by
  induction ms generalizing s with
  | nil => rfl
  | cons m ms ih => simp only [qsearchLoop, qsearchHLoop, ih]

/-- The two tails after the static-evaluation block agree for every
recursive-call oracle rec: they contain no evaluator call either. -/
theorem qsearchAfterEval_eq (O : QOr P) (pvNode : Bool) (pos : P) (tt : TTMap)
    (st : StackF) (si ply beta depth oldAlpha ttDepth : Int) (posKey : Nat)
    (ttMove : Move) (pvHit : Bool) (inCheck : Bool)
    (bestValue alpha futilityBase staticEval : Int)
    (rec : P → TTMap → StackF → Int → Int → Int × TTMap × StackF × List Move) :
    qsearchAfterEval O pvNode pos tt st si ply beta depth oldAlpha ttDepth
      posKey ttMove pvHit inCheck bestValue alpha futilityBase staticEval rec =
    qsearchHAfterEval O pvNode pos tt st si ply beta depth oldAlpha ttDepth
      posKey ttMove pvHit inCheck bestValue alpha futilityBase staticEval rec := by
  simp only [qsearchAfterEval, qsearchHAfterEval, qsearchLoop_eq]

/-- C8: qsearch_hybrid is qsearch with the evaluation function replaced.
Whenever the two evaluators denote the same function, qsearch and
qsearch_hybrid return the same value and make the same TT, stack and PV
updates, at every fuel, node type, position, window and depth (and
qsearch makes no history-table writes at all, so those trivially agree). -/
theorem c8_qsearch_hybrid_equiv (P : Type) (O : QOr P)
    (hev : O.evaluate = O.evaluate_hybrid) (fuel : Nat) (pvNode : Bool)
    (pos : P) (tt : TTMap) (st : StackF) (si alpha beta depth : Int) :
    qsearchM O fuel pvNode pos tt st si alpha beta depth =
    qsearch_hybridM O fuel pvNode pos tt st si alpha beta depth := by
  induction fuel generalizing pvNode pos tt st si alpha beta depth with
  | zero => rfl
  | succ n ih =>
    have hrec : (fun pos2 tt2 stc a b =>
        qsearchM O n pvNode pos2 tt2 stc (si + 1) a b (depth - 1)) =
        (fun pos2 tt2 stc a b =>
          qsearch_hybridM O n pvNode pos2 tt2 stc (si + 1) a b (depth - 1)) := by
      funext pos2 tt2 stc a b
      exact ih pvNode pos2 tt2 stc (si + 1) a b (depth - 1)
    simp only [qsearchM, qsearch_hybridM, hev, hrec, qsearchAfterEval_eq]

/-- A trivial oracle set over the unit position type whose two evaluators
are the same function, for the C8 witness. -/
def c8Or : QOr Unit where
  checkers := fun _ => false
  isDraw := fun _ _ => false
  key := fun _ => 0
  rule50 := fun _ => 0
  evaluate := fun _ => 7
  evaluate_hybrid := fun _ => 7
  tempo := 28
  knownWin := 10000
  cmPruneThreshold := 0
  givesCheck := fun _ _ => false
  capOrPromo := fun _ _ => false
  advancedPawnPush := fun _ _ => false
  capturedValueEG := fun _ _ => 0
  seeGe := fun _ _ _ => true
  isDiscoveryCheck := fun _ _ => false
  legal := fun _ _ => true
  movedPiece := fun _ _ => 0
  toSq := fun _ => 0
  doMove := fun p _ => p
  contHistVal := fun _ _ _ => 0
  pickMoves := fun _ _ _ _ => []

/-- Witness for c8_qsearch_hybrid_equiv at the concrete oracle c8Or, two
units of fuel, an empty TT and a constant stack. -/
theorem c8_qsearch_hybrid_equiv_witness :
    qsearchM c8Or 2 false () []
      (fun _ => ⟨0, MOVE_NONE, 0, false, false, (false, false, 0, 0)⟩)
      7 (-50) 50 0 =
    qsearch_hybridM c8Or 2 false () []
      (fun _ => ⟨0, MOVE_NONE, 0, false, false, (false, false, 0, 0)⟩)
      7 (-50) 50 0 :=
  c8_qsearch_hybrid_equiv Unit c8Or rfl 2 false () []
    (fun _ => ⟨0, MOVE_NONE, 0, false, false, (false, false, 0, 0)⟩)
    7 (-50) 50 0

/-- C9: in qsearch at a non-PV node that passes the draw and ply checks, a
TT hit whose stored depth is at least the computed quiescence TT depth,
with a non-NONE adjusted value and a bound matching the window, returns
ttValue whatever the rule-50 counter of the position is: the cutoff has
no rule-50 guard, unlike the one of the main search. -/
theorem c9_qsearch_tt_cutoff_any_r50 (P : Type) (O : QOr P) (pos : P)
    (tt : TTMap) (st : StackF) (si alpha beta depth : Int) (fuel : Nat)
    (e : TTE) (r50 : Int) (hr50 : O.rule50 pos = r50)
    (hdraw : O.isDraw pos (st si).ply = false)
    (hply : (st si).ply < MAX_PLY)
    (hprobe : ttprobe tt (O.key pos) = some e)
    (httd : (if O.checkers pos ∨ depth ≥ DEPTH_QS_CHECKS then DEPTH_QS_CHECKS
      else DEPTH_QS_NO_CHECKS) ≤ e.depth)
    (httv : value_from_tt e.value (st si).ply r50 ≠ VALUE_NONE)
    (hbound : if value_from_tt e.value (st si).ply r50 ≥ beta
      then e.bound &&& BOUND_LOWER ≠ 0 else e.bound &&& BOUND_UPPER ≠ 0) :
    (qsearchM O (fuel + 1) false pos tt st si alpha beta depth).1 =
      value_from_tt e.value (st si).ply r50 := by
  have h1 : ¬(O.isDraw pos (st si).ply = true ∨ (st si).ply ≥ MAX_PLY) := by
    intro h
    rcases h with h | h
    · rw [hdraw] at h; exact absurd h (by simp)
    · omega
  simp only [qsearchM, hprobe, Option.isSome_some, Option.getD_some, hr50]
  rw [if_neg h1, if_pos ⟨by simp, trivial, httd, httv, hbound⟩]
  simp

/-- Witness for c9_qsearch_tt_cutoff_any_r50: a TT hit of value 500 with a
LOWER bound above beta = 50, at a rule-50 counter of 77. -/
theorem c9_qsearch_tt_cutoff_any_r50_witness :
    (qsearchM
      { c8Or with rule50 := fun _ => 77 } 1 false ()
      [(0, ⟨500, 0, 0, BOUND_LOWER, MOVE_NONE, false⟩)]
      (fun _ => ⟨5, MOVE_NONE, 0, false, false, (false, false, 0, 0)⟩)
      0 (-50) 50 0).1 = value_from_tt 500 5 77 :=
  c9_qsearch_tt_cutoff_any_r50 Unit { c8Or with rule50 := fun _ => 77 } ()
    [(0, ⟨500, 0, 0, BOUND_LOWER, MOVE_NONE, false⟩)]
    (fun _ => ⟨5, MOVE_NONE, 0, false, false, (false, false, 0, 0)⟩)
    0 (-50) 50 0 0 ⟨500, 0, 0, BOUND_LOWER, MOVE_NONE, false⟩ 77 rfl rfl
    (by decide) rfl (by decide) (by decide) (by decide)

end Stockfish
